import Mathlib

/-!
Shallow embedding of the deferred-mutation texture engine from
`nr/tutorial/scripts/gloo/texture.py` and `nr/tutorial/scripts/gloo/globject.py`
(codecamp-esrf-2014).

Modelling conventions:
  * Python tuples of integers (shapes, offsets) are `List Nat` / `List Int`;
    Python tuple `+` is list append (concatenation), and tuple `==` is
    element-wise list equality.
  * A numpy array is abstracted to `Arr`: its `shape`, a `contiguous` flag
    (`data.flags["C_CONTIGUOUS"]`) and an opaque `content` tag standing for
    the element payload.  `np.array(x, copy=...)` preserves shape and content
    and yields a contiguous array.
  * A `Texture` object addressed as a receiver is `Tex`; `isView` models
    `self._base is not None`.  A root owns its registry `_views`; because a
    Lean structure cannot contain itself, the registered view objects are
    stored inside the root as `View` records, and `registered` models
    membership in the base's `_views` list (Python drops the reference on
    resize; the record keeps the object's state visible after it is dropped,
    exactly like a client-held reference to the view would).
  * Raising an exception is returning `.error` in `Except TexError`.
  * GPU traffic is recorded as a list of `GLCall` values.
-/

/-- The Python exception kinds raised by the texture module. -/
inductive TexError where
  | valueError (msg : String)
  | runtimeError (msg : String)
  | indexError (msg : String)
  | typeError (msg : String)
  | nameError (msg : String)
  | assertionError
  deriving DecidableEq, Repr

/-! OpenGL enumeration constants used by the module (numeric values of the
`OpenGL.GL` names). -/

def GL_TEXTURE_1D : Nat := 0x0DE0
def GL_TEXTURE_2D : Nat := 0x0DE1
def GL_NEAREST : Nat := 0x2600
def GL_LINEAR : Nat := 0x2601
def GL_REPEAT : Nat := 0x2901
def GL_CLAMP_TO_EDGE : Nat := 0x812F
def GL_MIRRORED_REPEAT : Nat := 0x8370
def GL_TEXTURE_MIN_FILTER : Nat := 0x2801
def GL_TEXTURE_MAG_FILTER : Nat := 0x2800
def GL_TEXTURE_WRAP_S : Nat := 0x2802
def GL_TEXTURE_WRAP_T : Nat := 0x2803
def GL_LUMINANCE : Nat := 0x1909
def GL_LUMINANCE_ALPHA : Nat := 0x190A
def GL_RGB : Nat := 0x1907
def GL_RGBA : Nat := 0x1908
def GL_UNSIGNED_BYTE : Nat := 0x1401

/-- Abstraction of a numpy array: shape, C-contiguity flag, opaque content. -/
structure Arr where
  shape : List Nat
  contiguous : Bool := true
  content : Nat := 0
  deriving DecidableEq, Repr

/-- numpy `a.size`: product of the shape (1 for a 0-d array). -/
def Arr.size (a : Arr) : Nat := a.shape.foldl (fun x y => x * y) 1

/-- A texture parameter that Python stores either as a single GL enum or as a
pair (`self._interpolation = gl.GL_NEAREST, gl.GL_NEAREST` is a tuple; the
setters store a single value). -/
inductive ParamVal where
  | single (v : Nat)
  | pair (a b : Nat)
  deriving DecidableEq, Repr

/-- State of a view object registered on (and possibly later dropped by) a
root texture.  `registered` models membership in the base's `_views` list;
`valid` is the view's `_valid` flag; `pending` is the view's own
`_pending_data` (always empty: a view never queues); `hasData` records whether
the view received a sliced reference into the base's CPU storage. -/
structure View where
  offset : List Nat
  shape : List Nat
  valid : Bool := true
  registered : Bool := true
  pending : List (Arr × List Int) := []
  hasData : Bool := false
  deriving DecidableEq, Repr

/-- A `Texture` object.  `isView` models `self._base is not None`; the fields
`offset` and `valid` are meaningful for views.  Dirty flags mirror
`GLObject.__init__` overridden by `Texture.__init__` (which resets
`_need_resize`/`_need_update` to `False`; construction with data or a
non-empty shape then sets `_need_resize = True`). -/
structure Tex where
  isView : Bool := false
  offset : List Nat := []
  valid : Bool := true
  shape : List Nat
  resizeable : Bool := true
  store : Bool := true
  data : Option Arr := none
  pending : List (Arr × List Int) := []
  views : List View := []
  needResize : Bool := false
  needUpdate : Bool := false
  wrapping : ParamVal := .single GL_CLAMP_TO_EDGE
  interpolation : ParamVal := .pair GL_NEAREST GL_NEAREST
  needParameterization : Bool := true
  target : Nat := GL_TEXTURE_2D
  format : Nat := GL_RGBA
  gtype : Nat := GL_UNSIGNED_BYTE
  handle : Int := -1
  needCreate : Bool := true
  needDelete : Bool := false
  deriving DecidableEq, Repr

/-! Indexing keys.  A Python key is either a scalar (int, slice or Ellipsis,
wrapped into a 1-tuple by lines 321-323) or a tuple of such components. -/

/-- One component of an indexing key. -/
inductive KeyElem where
  | int (k : Int)
  | sl (start stop step : Option Int)
  | ellipsis
  deriving DecidableEq, Repr

/-- A Python indexing key as received by `__getitem__` / `__setitem__`. -/
inductive PyKey where
  | scalar (k : KeyElem)
  | tup (ks : List KeyElem)
  deriving DecidableEq, Repr

/-- Lines 321-323: a scalar key is wrapped into a 1-tuple. -/
def PyKey.toList : PyKey → List KeyElem
  | .scalar k => [k]
  | .tup ks => ks

/-- Python sequence indexing with negative-index wrap-around
(`shape[dim]` / `slices[dim]` where `dim` may be negative). -/
def pyIdx (n : Nat) (i : Int) : Except TexError Nat :=
  if 0 ≤ i ∧ i < (n : Int) then .ok i.toNat
  else if -(n : Int) ≤ i ∧ i < 0 then .ok (i + n).toNat
  else .error (.indexError "tuple index out of range")

/-- Python `slice.indices(size)`: resolves `start`/`stop`/`step` defaults and
clamps them into range, following CPython's algorithm. -/
def sliceIndices (size : Nat) (start stop step : Option Int) :
    Except TexError (Int × Int × Int) :=
  let n : Int := size
  let st : Int := step.getD 1
  if st = 0 then .error (.valueError "slice step cannot be zero")
  else
    let lower : Int := if st < 0 then -1 else 0
    let upper : Int := if st < 0 then n - 1 else n
    let a : Int :=
      match start with
      | none => if st < 0 then upper else lower
      | some v =>
        if v < 0 then max (v + n) lower else min v upper
    let b : Int :=
      match stop with
      | none => if st < 0 then lower else upper
      | some v =>
        if v < 0 then max (v + n) lower else min v upper
    .ok (a, b, st)

/-- Body of the key loop (lines 338-357): process one key component against
one dimension.  Python reads `self.shape[dim]` before discriminating on the
component, so a bad `dim` raises even for an Ellipsis component. -/
def applyKeyElem (shape : List Nat) (slices : List (Nat × Nat)) (k : KeyElem)
    (dim : Int) : Except TexError (List (Nat × Nat)) := do
  let d ← pyIdx shape.length dim
  let size := (shape.get? d).getD 0
  match k with
  | .int k0 =>
    let k1 : Int := if k0 < 0 then k0 + size else k0
    if k1 < 0 ∨ k1 > (size : Int) then
      .error (.indexError "Texture assignment index out of range")
    else
      .ok (slices.set d (k1.toNat, k1.toNat + 1))
  | .sl a b c => do
    let r ← sliceIndices size a b c
    if r.2.2 ≠ 1 then .error (.valueError "Cannot access non-contiguous data")
    else
      let p := if r.2.1 < r.1 then (r.2.1.toNat, r.1.toNat)
               else (r.1.toNat, r.2.1.toNat)
      .ok (slices.set d p)
  | .ellipsis => .ok slices

/-- Lines 321-360 of `__getitem__` (identical in `__setitem__`): normalize the
key, choose the dimension order (an Ellipsis in front aligns the reversed key
to trailing dimensions), and fold the key components over the slice list. -/
def parseKeySlices (shape : List Nat) (key : List KeyElem) :
    Except TexError (List (Nat × Nat)) :=
  if key.length = 0 then .error (.indexError "tuple index out of range")
  else
    let slices : List (Nat × Nat) := shape.map (fun s => (0, s))
    let n : Int := shape.length
    let pairs : List (KeyElem × Int) :=
      if key.head? = some KeyElem.ellipsis then
        key.reverse.zip ((List.range key.length).map (fun j => n - 1 - j))
      else
        key.zip ((List.range key.length).map (fun j => (j : Int)))
    pairs.foldlM (fun sl kp => applyKeyElem shape sl kp.1 kp.2) slices

/-- Lines 359-360: the view's offset is the slice starts, its shape the slice
lengths. -/
def keyOffsetShape (shape : List Nat) (key : PyKey) :
    Except TexError (List Nat × List Nat) := do
  let sl ← parseKeySlices shape key.toList
  .ok (sl.map Prod.fst, sl.map (fun p => p.2 - p.1))

/-! numpy helpers used by the texture operations. -/

/-- Lines 305-308: `np.array(data, copy=True)` when non-contiguous, otherwise
`np.array(data, copy=copy)`.  Either way the result is contiguous with the
same shape and content. -/
def npAsContiguous (d : Arr) (copy : Bool) : Arr :=
  if ¬ d.contiguous then { d with contiguous := true }
  else if copy then { d with contiguous := true }
  else d

/-- Python 2 `reduce(mul, shape)` (line 418): folds multiplication over a
non-empty sequence; an empty sequence raises `TypeError`. -/
def pyReduceMul : List Nat → Except TexError Nat
  | [] => .error (.typeError "reduce of empty sequence with no initial value")
  | x :: xs => .ok (xs.foldl (fun a b => a * b) x)

/-- Length of the selection `slice(a, b, c)` makes on an axis of size `size`
(numpy basic slicing; only `step = 1` is ever reached without an error in the
texture code). -/
def npSliceLen (size : Nat) (a b c : Option Int) : Except TexError Nat := do
  let r ← sliceIndices size a b c
  let start := r.1
  let stop := r.2.1
  let step := r.2.2
  if step > 0 then .ok ((stop - start + step - 1) / step).toNat
  else .ok ((start - stop - step - 1) / (-step)).toNat

/-- Shape of `arr[key]` under numpy basic indexing: an in-range integer drops
the axis, a slice keeps it with the clamped length, a single Ellipsis expands
to full slices over the unmentioned axes. -/
def npSubShape (shape : List Nat) (key : List KeyElem) :
    Except TexError (List Nat) :=
  let isEll : KeyElem → Bool := fun k => k == KeyElem.ellipsis
  if (key.filter isEll).length > 1 then
    .error (.indexError "an index can only have a single ellipsis")
  else
    let nkeys := (key.filter (fun k => ¬ isEll k)).length
    if nkeys > shape.length then
      .error (.indexError "too many indices for array")
    else
      let expanded : List KeyElem :=
        match key.findIdx? isEll with
        | none => key
        | some i =>
          key.take i ++
            List.replicate (shape.length - nkeys) (KeyElem.sl none none none) ++
            key.drop (i + 1)
      go shape expanded
where
  go : List Nat → List KeyElem → Except TexError (List Nat)
  | ds, [] => .ok ds
  | [], _ :: _ => .error (.indexError "too many indices for array")
  | d :: ds, k :: ks =>
    match k with
    | .int k0 =>
      let k1 : Int := if k0 < 0 then k0 + d else k0
      if k1 < 0 ∨ k1 ≥ (d : Int) then
        .error (.indexError "index out of bounds")
      else go ds ks
    | .sl a b c => do
      let len ← npSliceLen d a b c
      let rest ← go ds ks
      .ok (len :: rest)
    | .ellipsis => go ds ks

/-- Lines 421-423: `self.data[key] = data; data = self.data[key]` — write the
value through the CPU storage and re-read the stored sub-array as the
canonical value to enqueue.  The re-read array has the numpy sub-shape of the
key; element contents are abstract (the re-read holds the just-written
values), and a numpy sub-view is conservatively treated as non-contiguous.
Broadcast failures of the assignment are not modelled (no claim exercises a
mismatched assignment through CPU storage). -/
def npStoreSubShape (shape : List Nat) (key : PyKey) (value : Arr) :
    Except TexError Arr := do
  let s ← npSubShape shape key.toList
  .ok { shape := s, content := value.content, contiguous := false }

/-! Core texture operations (`Texture` methods). -/

/-- The all-zero offset `(0,) * n`. -/
def zeroOffset (n : Nat) : List Int := List.replicate n 0

/-- Lines 300-302: `for i in range(len(data.shape)): if offset[i] +
data.shape[i] > self.shape[i]: raise ValueError("Data is too large")`.
Walking the three sequences positionally is equivalent to the indexed loop;
running out of `offset` or of `self.shape` before `data.shape` is exhausted is
Python's tuple `IndexError`. -/
def fitCheck : List Int → List Nat → List Nat → Except TexError Unit
  | _, [], _ => .ok ()
  | [], _ :: _, _ => .error (.indexError "tuple index out of range")
  | _ :: _, _ :: _, [] => .error (.indexError "tuple index out of range")
  | o :: os, d :: ds, s :: ss =>
    if o + (d : Int) > (s : Int) then .error (.valueError "Data is too large")
    else fitCheck os ds ss

/-- Lines 237-239 of `resize`: `view._valid = False` for each view in the
registry, then `self._views = []` — in this model, invalidate and unregister
each registered view record. -/
def invalidateView (v : View) : View :=
  if v.registered then { v with valid := false, registered := false } else v

/-- `Texture.resize` (lines 209-247).  Note two source peculiarities kept
faithfully: the method never sets `_need_resize`, and line 245 reallocates the
CPU storage with `np.resize(self._data, self._data.shape)` — the storage's
own (old) shape, not the new one. -/
def Texture.resize (t : Tex) (shape : List Nat) : Except TexError Tex :=
  if ¬ t.resizeable then .error (.runtimeError "Texture is not resizeable")
  else if t.isView then .error (.runtimeError "Texture view is not resizeable")
  else if shape.length ≠ t.shape.length then
    .error (.valueError "New shape has wrong number of dimensions")
  else if shape = t.shape then .ok t
  else
    .ok { t with
      views := t.views.map invalidateView,
      pending := [],
      needUpdate := false,
      shape := shape,
      data :=
        if t.data.isSome ∧ t.store then
          t.data.map (fun d => { d with shape := d.shape, contiguous := true })
        else none }

/-- Lines 292-294 of `Texture.set_data`: when the effective offset is zero
(`offset is None or offset == (0,)*len(self.shape)`) and the data's shape
equals the texture's, clear the pending queue. -/
def clearIfFull (t1 : Tex) (data : Arr) (offset : Option (List Int)) : Tex :=
  if offset = none ∨ offset = some (zeroOffset t1.shape.length) then
    (if data.shape = t1.shape then { t1 with pending := [] } else t1)
  else t1

/-- Line 297 of `Texture.set_data`: a zero effective offset is replaced by
the explicit zero tuple; any other offset is kept as given. -/
def effOffset (t1 : Tex) (offset : Option (List Int)) : List Int :=
  if offset = none ∨ offset = some (zeroOffset t1.shape.length) then
    zeroOffset t1.shape.length
  else offset.getD []

/-- Lines 292-311 of `Texture.set_data`, after the implicit resize: possibly
clear the queue (full overwrite), resolve the effective offset, bounds check,
fix up contiguity, append to the pending queue and set `_need_update`. -/
def set_data_enqueue (t1 : Tex) (data : Arr) (offset : Option (List Int))
    (copy : Bool) : Except TexError Tex :=
  fitCheck (effOffset t1 offset) data.shape (clearIfFull t1 data offset).shape >>=
    fun _ =>
      .ok { clearIfFull t1 data offset with
              pending := (clearIfFull t1 data offset).pending ++
                [(npAsContiguous data copy, effOffset t1 offset)],
              needUpdate := true }

/-- `Texture.set_data` (lines 251-311) specialized to a root receiver
(`self.base is None`; the view receiver is `Texture.set_data_view` below).
Lines 288-290: when no offset is given and the data's shape differs from the
texture's, resize implicitly to the data's shape; then enqueue. -/
def Texture.set_data (t : Tex) (data : Arr) (offset : Option (List Int))
    (copy : Bool) : Except TexError Tex :=
  match offset with
  | none =>
    (if data.shape ≠ t.shape then Texture.resize t data.shape else .ok t) >>=
      fun t1 => set_data_enqueue t1 data none copy
  | some l => set_data_enqueue t data (some l) copy

/-- `Texture.set_data` (lines 276-281) for a view receiver: fail on an
invalidated view, otherwise forward to the base.  Line 280 passes
`offset=self.offset` — the view's own offset; the caller's `offset` argument
is discarded. -/
def Texture.set_data_view (v : View) (base : Tex) (data : Arr)
    (offset : Option (List Int)) (copy : Bool) : Except TexError Tex :=
  if ¬ v.valid then .error (.valueError "This texture view has been invalited")
  else Texture.set_data base data (some (v.offset.map (fun n => (n : Int)))) copy

/-- `Texture.__getitem__` (lines 315-369): only a base texture may be
indexed; parse the key, build the view of the computed offset and shape and
register it in `_views`.  The variant re-validation run by `self.__class__`
always succeeds for a sub-shape of a valid texture (the trailing channel
count can only shrink), so it is not repeated here; the view inherits a
sliced reference into the CPU storage when one exists. -/
def Texture.getitem (t : Tex) (key : PyKey) : Except TexError (Tex × View) := do
  if t.isView then .error (.valueError "Can only access data from a base texture")
  else
    let p ← keyOffsetShape t.shape key
    let v : View := { offset := p.1, shape := p.2, valid := true,
                      registered := true, pending := [],
                      hasData := t.data.isSome }
    .ok ({ t with views := t.views ++ [v] }, v)

/-- `Texture.__setitem__` (lines 373-437) specialized to a root receiver
(`self.base is None`, so the invalid-view guard at line 376 cannot fire and
line 434 calls `self.set_data` at the key's offset). -/
def Texture.setitem (t : Tex) (key : PyKey) (value : Arr) :
    Except TexError Tex := do
  let p ← keyOffsetShape t.shape key
  let size ← pyReduceMul p.2
  let d ←
    if t.data.isSome then
      npStoreSubShape t.shape key value
    else
      .ok (if value.size ≠ size then
             { shape := p.2, content := value.content, contiguous := true }
           else value)
  Texture.set_data t d (some (p.1.map (fun n => (n : Int)))) false

/-- `Texture.__setitem__` (lines 373-437) for a view receiver: the
invalid-view guard, the key parse against the view's shape, the value
coercion, then line 436 `offset = self.offset + offset` — a Python tuple
concatenation producing a tuple twice as long — before forwarding to
`self.base.set_data` (line 437). -/
def Texture.setitem_view (v : View) (base : Tex) (key : PyKey) (value : Arr) :
    Except TexError Tex := do
  if ¬ v.valid then .error (.valueError "This texture view has been invalited")
  else
    let p ← keyOffsetShape v.shape key
    let size ← pyReduceMul p.2
    let d ←
      if v.hasData then
        npStoreSubShape v.shape key value
      else
        .ok (if value.size ≠ size then
               { shape := p.2, content := value.content, contiguous := true }
             else value)
    let off2 : List Int :=
      (v.offset.map (fun n => (n : Int))) ++ (p.1.map (fun n => (n : Int)))
    Texture.set_data base d (some off2) false

/-! Parameter accessors (lines 166-206).  The `wrapping` getter (line 170),
the `wrapping` setter (line 179) and the `interpolation` getter (line 191)
all test `if base is not None:` — the bare name `base`, which is bound
nowhere in the module — so each of them raises `NameError` before doing
anything else.  Only the `interpolation` setter (line 201) tests
`self.base`. -/

/-- `Texture.wrapping` getter: line 170 references the undefined global name
`base`, so every read raises `NameError`. -/
def Texture.wrapping_get (t : Tex) : Except TexError ParamVal :=
  .error (.nameError "name base is not defined")

/-- `Texture.wrapping` setter: line 179 references the undefined global name
`base`, so every write raises `NameError`. -/
def Texture.wrapping_set (t : Tex) (value : Nat) : Except TexError Tex :=
  .error (.nameError "name base is not defined")

/-- `Texture.interpolation` getter: line 191 references the undefined global
name `base`, so every read raises `NameError`. -/
def Texture.interpolation_get (t : Tex) : Except TexError ParamVal :=
  .error (.nameError "name base is not defined")

/-- `Texture.interpolation` setter (lines 197-206): reject on a view, assert
the value is `GL_NEAREST` or `GL_LINEAR`, store it and mark
`_need_parameterization`. -/
def Texture.interpolation_set (t : Tex) (value : Nat) : Except TexError Tex :=
  if t.isView then .error (.valueError "Cannot set interpolation on texture view")
  else if ¬ (value = GL_NEAREST ∨ value = GL_LINEAR) then .error .assertionError
  else .ok { t with interpolation := .single value, needParameterization := true }

/-! GPU call layer: each graphics-API primitive invocation is recorded as a
`GLCall`. -/

/-- One recorded graphics-API call. -/
inductive GLCall where
  | genTextures
  | deleteTextures (h : Int)
  | bindTexture (target : Nat) (h : Int)
  | texParameterf (target pname value : Nat)
  | texImage2D (target level iformat width height border format gtype : Nat)
  | texSubImage2D (target level : Nat) (x y : Int)
      (width height format gtype content : Nat)
  | texImage1D (target level iformat width border format gtype : Nat)
  | texSubImage1D (target level : Nat) (x : Int)
      (width format gtype content : Nat)
  deriving DecidableEq, Repr

/-- Lines 444-449 / 453-458 of `_parameterize`: a parameter stored as a tuple
is split into its two components, a single value is used for both. -/
def paramPair : ParamVal → Nat × Nat
  | .pair a b => (a, b)
  | .single v => (v, v)

/-- `Texture._parameterize` (lines 440-461): when reparameterization is
pending, push min/mag filters and S/T wrapping to the GPU.  Line 461 then
sets `_need_parameterization = True` unconditionally (it sits outside the
`if`), so the flag is never cleared. -/
def Texture.parameterize (t : Tex) : Tex × List GLCall :=
  ({ t with needParameterization := true },
   if t.needParameterization then
     [GLCall.texParameterf t.target GL_TEXTURE_MIN_FILTER (paramPair t.interpolation).1,
      GLCall.texParameterf t.target GL_TEXTURE_MAG_FILTER (paramPair t.interpolation).2,
      GLCall.texParameterf t.target GL_TEXTURE_WRAP_S (paramPair t.wrapping).1,
      GLCall.texParameterf t.target GL_TEXTURE_WRAP_T (paramPair t.wrapping).2]
   else [])

/-- `Texture._create` (lines 464-468): request a fresh GPU handle.  Handle
allocation is abstracted to the fixed fresh handle `1`. -/
def Texture.create_hook (t : Tex) : Tex × List GLCall :=
  ({ t with handle := 1 }, [GLCall.genTextures])

/-- `Texture._activate` (lines 478-484): bind the handle; reparameterize when
pending. -/
def Texture.activate_hook (t : Tex) : Tex × List GLCall :=
  if t.needParameterization then
    ((Texture.parameterize t).1,
     GLCall.bindTexture t.target t.handle :: (Texture.parameterize t).2)
  else (t, [GLCall.bindTexture t.target t.handle])

/-- `Texture._deactivate` (lines 487-491): bind the null handle. -/
def Texture.deactivate_hook (t : Tex) : Tex × List GLCall :=
  (t, [GLCall.bindTexture t.target 0])

/-- `GLObject.delete` (globject.py lines 27-35). -/
def Texture.delete (t : Tex) : Tex × List GLCall :=
  ({ t with handle := -1, needCreate := true, needUpdate := true,
            needDelete := false },
   if t.needDelete then [GLCall.deleteTextures t.handle] else [])

/-- Python tuple indexing with a non-negative index, raising `IndexError`
out of range. -/
def tupleGet (l : List Nat) (i : Nat) : Except TexError Nat :=
  match l.get? i with
  | some v => .ok v
  | none => .error (.indexError "tuple index out of range")

/-- Python tuple indexing into a tuple of signed integers. -/
def intGet (l : List Int) (i : Nat) : Except TexError Int :=
  match l.get? i with
  | some v => .ok v
  | none => .error (.indexError "tuple index out of range")

/-- Drain loop of `Texture2D._update` (lines 687-694): pop pending entries in
FIFO order and issue one `glTexSubImage2D` per entry with `y, x = offset[0],
offset[1]` and `width, height = data.shape[1], data.shape[0]`.  (Entries
enqueued through `set_data` always carry a concrete offset tuple, never
`None`.) -/
def drain2D (target format gtype : Nat) :
    List (Arr × List Int) → Except TexError (List GLCall)
  | [] => .ok []
  | (d, off) :: rest => do
    let y ← intGet off 0
    let x ← intGet off 1
    let width ← tupleGet d.shape 1
    let height ← tupleGet d.shape 0
    let c ← drain2D target format gtype rest
    .ok (GLCall.texSubImage2D target 0 x y width height format gtype d.content :: c)

/-- The GPU-side resize call of `Texture2D._resize` (lines 667-672):
`glTexImage2D` with `width = shape[1]`, `height = shape[0]` and no data. -/
def Texture2D.resize_call (t : Tex) : Except TexError (List GLCall) := do
  let width ← tupleGet t.shape 1
  let height ← tupleGet t.shape 0
  .ok [GLCall.texImage2D t.target 0 t.format width height 0 t.format t.gtype]

/-- `Texture2D._update` (lines 675-694): a no-op on a view; on a root, run
the GPU-side resize if one is pending and clear `_need_resize`, then drain
the queue. -/
def Texture2D.update_hook (t : Tex) : Except TexError (Tex × List GLCall) :=
  if t.isView then .ok (t, [])
  else if t.needResize then
    Texture2D.resize_call t >>= fun c1 =>
      drain2D t.target t.format t.gtype t.pending >>= fun c2 =>
        .ok ({ t with needResize := false, pending := [] }, c1 ++ c2)
  else
    drain2D t.target t.format t.gtype t.pending >>= fun c2 =>
      .ok ({ t with pending := [] }, c2)

/-- The create-if-needed step of `GLObject.activate` (globject.py
lines 41-43). -/
def createStep (t : Tex) : Tex × List GLCall :=
  if t.needCreate then
    ({ (Texture.create_hook t).1 with needCreate := false },
     (Texture.create_hook t).2)
  else (t, [])

/-- `GLObject.activate` (globject.py lines 38-47) for a `Texture2D`: create
if needed, run the activate hook, then run the update hook if `_need_update`
is set and clear the flag. -/
def Texture2D.activate (t : Tex) : Except TexError (Tex × List GLCall) :=
  if (Texture.activate_hook (createStep t).1).1.needUpdate then
    Texture2D.update_hook (Texture.activate_hook (createStep t).1).1 >>= fun r3 =>
      .ok ({ r3.1 with needUpdate := false },
        (createStep t).2 ++ (Texture.activate_hook (createStep t).1).2 ++ r3.2)
  else
    .ok ((Texture.activate_hook (createStep t).1).1,
      (createStep t).2 ++ (Texture.activate_hook (createStep t).1).2)

/-! Client operation steps.  `TexOp` enumerates everything a client (or the
render loop) can do to a root texture after construction; it is used to state
that view invalidation is permanent. -/

/-- One client-visible operation on a root texture (operations addressed at a
view carry the view object). -/
inductive TexOp where
  | opResize (s : List Nat)
  | opSetData (d : Arr) (off : Option (List Int)) (copy : Bool)
  | opGetitem (k : PyKey)
  | opSetitem (k : PyKey) (value : Arr)
  | opViewSetData (v : View) (d : Arr) (off : Option (List Int)) (copy : Bool)
  | opViewSetitem (v : View) (k : PyKey) (value : Arr)
  | opSetInterpolation (value : Nat)
  | opSetWrapping (value : Nat)
  | opActivate
  | opDeactivate
  | opDelete

/-- Run one operation against the root texture's state. -/
def applyOp (t : Tex) : TexOp → Except TexError Tex
  | .opResize s => Texture.resize t s
  | .opSetData d off copy => Texture.set_data t d off copy
  | .opGetitem k => Except.map Prod.fst (Texture.getitem t k)
  | .opSetitem k value => Texture.setitem t k value
  | .opViewSetData v d off copy => Texture.set_data_view v t d off copy
  | .opViewSetitem v k value => Texture.setitem_view v t k value
  | .opSetInterpolation value => Texture.interpolation_set t value
  | .opSetWrapping value => Texture.wrapping_set t value
  | .opActivate => Except.map Prod.fst (Texture2D.activate t)
  | .opDeactivate => .ok (Texture.deactivate_hook t).1
  | .opDelete => .ok (Texture.delete t).1

/-- Run a sequence of operations. -/
def applyOps (t : Tex) : List TexOp → Except TexError Tex
  | [] => .ok t
  | op :: ops => do
    let t1 ← applyOp t op
    applyOps t1 ops

theorem exceptBind_ok {ε α β : Type} (a : α) (f : α → Except ε β) :
    (Except.ok a : Except ε α) >>= f = f a := rfl

theorem exceptBind_error {ε α β : Type} (e : ε) (f : α → Except ε β) :
    (Except.error e : Except ε α) >>= f = Except.error e := rfl

theorem exceptMap_ok {ε α β : Type} (f : α → β) (a : α) :
    Except.map f (Except.ok a : Except ε α) = Except.ok (f a) := rfl

theorem exceptMap_error {ε α β : Type} (f : α → β) (e : ε) :
    Except.map f (Except.error e : Except ε α) = Except.error e := rfl

/-- `b` keeps every view slot of `a` (new views are only ever appended), and
a view already invalid in `a` is still invalid in `b` at the same slot. -/
def viewsMono (a b : Tex) : Prop :=
  a.views.length ≤ b.views.length ∧
  ∀ i v v', a.views.get? i = some v → v.valid = false →
    b.views.get? i = some v' → v'.valid = false

theorem viewsMono_of_eq {a b : Tex} (h : b.views = a.views) : viewsMono a b := by
  constructor
  · rw [h]
  · intro i v v' hv hval hv'
    rw [h, hv] at hv'
    cases hv'
    exact hval

theorem viewsMono_refl (a : Tex) : viewsMono a a := viewsMono_of_eq rfl

theorem viewsMono_trans {a b c : Tex} (h1 : viewsMono a b) (h2 : viewsMono b c) :
    viewsMono a c := by
  refine ⟨le_trans h1.1 h2.1, ?_⟩
  intro i v v' hv hval hv'
  have hi : i < a.views.length := List.get?_eq_some.mp hv |>.1
  have hib : i < b.views.length := lt_of_lt_of_le hi h1.1
  have hb : b.views.get? i = some (b.views.get ⟨i, hib⟩) := List.get?_eq_get hib
  have hmid : (b.views.get ⟨i, hib⟩).valid = false := h1.2 i v _ hv hval hb
  exact h2.2 i _ v' hb hmid hv'

theorem viewsMono_of_map {a b : Tex} {f : View → View}
    (h : b.views = a.views.map f)
    (hf : ∀ v, v.valid = false → (f v).valid = false) : viewsMono a b := by
  constructor
  · rw [h, List.length_map]
  · intro i v v' hv hval hv'
    rw [h, List.get?_map, hv] at hv'
    cases hv'
    exact hf v hval

theorem viewsMono_of_append {a b : Tex} {x : View}
    (h : b.views = a.views ++ [x]) : viewsMono a b := by
  constructor
  · rw [h, List.length_append]
    exact Nat.le_add_right _ _
  · intro i v v' hv hval hv'
    have hi : i < a.views.length := List.get?_eq_some.mp hv |>.1
    rw [h, List.get?_append hi, hv] at hv'
    cases hv'
    exact hval

theorem resize_views {t : Tex} {s : List Nat} {t' : Tex}
    (h : Texture.resize t s = .ok t') :
    t' = t ∨ t'.views = t.views.map invalidateView := by
  unfold Texture.resize at h
  split_ifs at h with h1 h2 h3 h4 h5
  · cases h
    exact Or.inl rfl
  · cases h
    exact Or.inr rfl
  · cases h
    exact Or.inr rfl

theorem resize_viewsMono {t : Tex} {s : List Nat} {t' : Tex}
    (h : Texture.resize t s = .ok t') : viewsMono t t' := by
  rcases resize_views h with h1 | h1
  · exact h1 ▸ viewsMono_refl t
  · refine viewsMono_of_map h1 ?_
    intro v hv
    unfold invalidateView
    split_ifs with hr
    · rfl
    · exact hv


theorem clearIfFull_views (t1 : Tex) (d : Arr) (off : Option (List Int)) :
    (clearIfFull t1 d off).views = t1.views := by
  unfold clearIfFull
  split_ifs <;> rfl

theorem clearIfFull_shape (t1 : Tex) (d : Arr) (off : Option (List Int)) :
    (clearIfFull t1 d off).shape = t1.shape := by
  unfold clearIfFull
  split_ifs <;> rfl

theorem clearIfFull_data (t1 : Tex) (d : Arr) (off : Option (List Int)) :
    (clearIfFull t1 d off).data = t1.data := by
  unfold clearIfFull
  split_ifs <;> rfl

theorem clearIfFull_pending (t1 : Tex) (d : Arr) (off : Option (List Int)) :
    (clearIfFull t1 d off).pending = t1.pending ∨
      (clearIfFull t1 d off).pending = [] := by
  unfold clearIfFull
  split_ifs
  · exact Or.inr rfl
  · exact Or.inl rfl
  · exact Or.inl rfl

theorem effOffset_some (t1 : Tex) (l : List Int) : effOffset t1 (some l) = l := by
  unfold effOffset
  by_cases h : l = zeroOffset t1.shape.length
  · rw [if_pos (Or.inr (by rw [h]))]
    exact h.symm
  · rw [if_neg ?_]
    · rfl
    · intro hc
      rcases hc with hc | hc
      · cases hc
      · injection hc with hc
        exact h hc

theorem set_data_enqueue_ok {t1 : Tex} {d : Arr} {off : Option (List Int)}
    {c : Bool} {t' : Tex} (h : set_data_enqueue t1 d off c = .ok t') :
    t'.views = t1.views ∧ t'.shape = t1.shape ∧ t'.data = t1.data ∧
    t'.needUpdate = true ∧
    ∃ p, (p = t1.pending ∨ p = []) ∧
      t'.pending = p ++ [(npAsContiguous d c, effOffset t1 off)] := by
  unfold set_data_enqueue at h
  cases hf : fitCheck (effOffset t1 off) d.shape (clearIfFull t1 d off).shape with
  | error e =>
    rw [hf, exceptBind_error] at h
    cases h
  | ok u =>
    rw [hf, exceptBind_ok] at h
    cases h
    refine ⟨clearIfFull_views t1 d off, clearIfFull_shape t1 d off,
      clearIfFull_data t1 d off, rfl,
      (clearIfFull t1 d off).pending, clearIfFull_pending t1 d off, rfl⟩

theorem set_data_some_eq (t : Tex) (d : Arr) (l : List Int) (c : Bool) :
    Texture.set_data t d (some l) c = set_data_enqueue t d (some l) c := rfl

theorem set_data_none_eq (t : Tex) (d : Arr) (c : Bool) :
    Texture.set_data t d none c =
      (if d.shape ≠ t.shape then Texture.resize t d.shape else .ok t) >>=
        fun t1 => set_data_enqueue t1 d none c := rfl

theorem set_data_some_ok {t : Tex} {d : Arr} {l : List Int} {c : Bool}
    {t' : Tex} (h : Texture.set_data t d (some l) c = .ok t') :
    t'.views = t.views ∧ t'.shape = t.shape ∧ t'.data = t.data ∧
    t'.needUpdate = true ∧
    ∃ p, (p = t.pending ∨ p = []) ∧
      t'.pending = p ++ [(npAsContiguous d c, l)] := by
  rw [set_data_some_eq] at h
  have he := set_data_enqueue_ok h
  rw [effOffset_some] at he
  exact he

theorem set_data_viewsMono {t : Tex} {d : Arr} {off : Option (List Int)}
    {c : Bool} {t' : Tex} (h : Texture.set_data t d off c = .ok t') :
    viewsMono t t' := by
  cases off with
  | some l => exact viewsMono_of_eq (set_data_some_ok h).1
  | none =>
    rw [set_data_none_eq] at h
    by_cases hs : d.shape = t.shape
    · rw [if_neg (by simp [hs]), exceptBind_ok] at h
      exact viewsMono_of_eq (set_data_enqueue_ok h).1
    · rw [if_pos (by simp [hs])] at h
      cases hr : Texture.resize t d.shape with
      | error e =>
        rw [hr, exceptBind_error] at h
        cases h
      | ok tr =>
        rw [hr, exceptBind_ok] at h
        exact viewsMono_trans (resize_viewsMono hr)
          (viewsMono_of_eq (set_data_enqueue_ok h).1)

theorem getitem_views {t : Tex} {k : PyKey} {t' : Tex}
    (h : Except.map Prod.fst (Texture.getitem t k) = .ok t') :
    ∃ v, t'.views = t.views ++ [v] := by
  unfold Texture.getitem at h
  by_cases hv : t.isView = true
  · rw [if_pos hv, exceptMap_error] at h
    cases h
  · rw [if_neg hv] at h
    cases hp : keyOffsetShape t.shape k with
    | error e =>
      rw [hp, exceptBind_error, exceptMap_error] at h
      cases h
    | ok p =>
      rw [hp, exceptBind_ok, exceptMap_ok] at h
      cases h
      exact ⟨_, rfl⟩

theorem getitem_viewsMono {t : Tex} {k : PyKey} {t' : Tex}
    (h : Except.map Prod.fst (Texture.getitem t k) = .ok t') : viewsMono t t' := by
  obtain ⟨v, hv⟩ := getitem_views h
  exact viewsMono_of_append hv

theorem setitem_viewsMono {t : Tex} {k : PyKey} {value : Arr} {t' : Tex}
    (h : Texture.setitem t k value = .ok t') : viewsMono t t' := by
  unfold Texture.setitem at h
  cases hp : keyOffsetShape t.shape k with
  | error e =>
    rw [hp, exceptBind_error] at h
    cases h
  | ok p =>
    rw [hp, exceptBind_ok] at h
    cases hs : pyReduceMul p.2 with
    | error e =>
      rw [hs, exceptBind_error] at h
      cases h
    | ok size =>
      rw [hs, exceptBind_ok] at h
      by_cases hd : t.data.isSome = true
      · rw [if_pos hd] at h
        cases hn : npStoreSubShape t.shape k value with
        | error e =>
          rw [hn, exceptBind_error] at h
          cases h
        | ok dd =>
          rw [hn, exceptBind_ok] at h
          exact viewsMono_of_eq (set_data_some_ok h).1
      · rw [if_neg hd, exceptBind_ok] at h
        exact viewsMono_of_eq (set_data_some_ok h).1

theorem set_data_view_viewsMono {v : View} {t : Tex} {d : Arr}
    {off : Option (List Int)} {c : Bool} {t' : Tex}
    (h : Texture.set_data_view v t d off c = .ok t') : viewsMono t t' := by
  unfold Texture.set_data_view at h
  by_cases hv : v.valid = true
  · rw [if_neg (fun hc => hc hv)] at h
    exact viewsMono_of_eq (set_data_some_ok h).1
  · rw [if_pos hv] at h
    cases h

theorem setitem_view_viewsMono {v : View} {t : Tex} {k : PyKey} {value : Arr}
    {t' : Tex} (h : Texture.setitem_view v t k value = .ok t') :
    viewsMono t t' := by
  unfold Texture.setitem_view at h
  by_cases hv : v.valid = true
  · rw [if_neg (fun hc => hc hv)] at h
    cases hp : keyOffsetShape v.shape k with
    | error e =>
      rw [hp, exceptBind_error] at h
      cases h
    | ok p =>
      rw [hp, exceptBind_ok] at h
      cases hs : pyReduceMul p.2 with
      | error e =>
        rw [hs, exceptBind_error] at h
        cases h
      | ok size =>
        rw [hs, exceptBind_ok] at h
        by_cases hd : v.hasData = true
        · rw [if_pos hd] at h
          cases hn : npStoreSubShape v.shape k value with
          | error e =>
            rw [hn, exceptBind_error] at h
            cases h
          | ok dd =>
            rw [hn, exceptBind_ok] at h
            exact viewsMono_of_eq (set_data_some_ok h).1
        · rw [if_neg hd, exceptBind_ok] at h
          exact viewsMono_of_eq (set_data_some_ok h).1
  · rw [if_pos hv] at h
    cases h

theorem update_hook_views {t t' : Tex} {c : List GLCall}
    (h : Texture2D.update_hook t = .ok (t', c)) : t'.views = t.views := by
  unfold Texture2D.update_hook at h
  by_cases hv : t.isView = true
  · rw [if_pos hv] at h
    cases h
    rfl
  · rw [if_neg hv] at h
    by_cases hr : t.needResize = true
    · rw [if_pos hr] at h
      cases hc1 : Texture2D.resize_call t with
      | error e =>
        rw [hc1, exceptBind_error] at h
        cases h
      | ok c1 =>
        rw [hc1, exceptBind_ok] at h
        cases hc2 : drain2D t.target t.format t.gtype t.pending with
        | error e =>
          rw [hc2, exceptBind_error] at h
          cases h
        | ok c2 =>
          rw [hc2, exceptBind_ok] at h
          cases h
          rfl
    · rw [if_neg hr] at h
      cases hc2 : drain2D t.target t.format t.gtype t.pending with
      | error e =>
        rw [hc2, exceptBind_error] at h
        cases h
      | ok c2 =>
        rw [hc2, exceptBind_ok] at h
        cases h
        rfl

theorem createStep_views (t : Tex) : (createStep t).1.views = t.views := by
  unfold createStep
  split_ifs <;> rfl

theorem activate_hook_views (t : Tex) :
    (Texture.activate_hook t).1.views = t.views := by
  unfold Texture.activate_hook Texture.parameterize
  split_ifs <;> rfl

theorem activate_views {t t' : Tex} {c : List GLCall}
    (h : Texture2D.activate t = .ok (t', c)) : t'.views = t.views := by
  unfold Texture2D.activate at h
  by_cases hu : (Texture.activate_hook (createStep t).1).1.needUpdate = true
  · rw [if_pos hu] at h
    cases hup : Texture2D.update_hook (Texture.activate_hook (createStep t).1).1 with
    | error e =>
      rw [hup, exceptBind_error] at h
      cases h
    | ok r3 =>
      rw [hup, exceptBind_ok] at h
      cases h
      have h3 : r3.1.views = (Texture.activate_hook (createStep t).1).1.views :=
        @update_hook_views _ r3.1 r3.2 (by rw [← hup])
      rw [h3, activate_hook_views, createStep_views]
  · rw [if_neg hu] at h
    cases h
    rw [activate_hook_views, createStep_views]

theorem applyOp_viewsMono {t : Tex} {op : TexOp} {t' : Tex}
    (h : applyOp t op = .ok t') : viewsMono t t' := by
  cases op with
  | opResize s => exact resize_viewsMono h
  | opSetData d off copy => exact set_data_viewsMono h
  | opGetitem k => exact getitem_viewsMono h
  | opSetitem k value => exact setitem_viewsMono h
  | opViewSetData v d off copy =>
    unfold applyOp at h
    exact set_data_view_viewsMono h
  | opViewSetitem v k value =>
    unfold applyOp at h
    exact setitem_view_viewsMono h
  | opSetInterpolation value =>
    simp only [applyOp] at h
    unfold Texture.interpolation_set at h
    by_cases h1 : t.isView = true
    · rw [if_pos h1] at h
      cases h
    · rw [if_neg h1] at h
      by_cases h2 : value = GL_NEAREST ∨ value = GL_LINEAR
      · rw [if_neg (fun hc => hc h2)] at h
        cases h
        exact viewsMono_of_eq rfl
      · rw [if_pos h2] at h
        cases h
  | opSetWrapping value =>
    simp only [applyOp] at h
    unfold Texture.wrapping_set at h
    cases h
  | opActivate =>
    unfold applyOp at h
    cases ha : Texture2D.activate t with
    | error e =>
      rw [ha, exceptMap_error] at h
      cases h
    | ok r =>
      rw [ha, exceptMap_ok] at h
      cases h
      exact viewsMono_of_eq (@activate_views t r.1 r.2 (by rw [← ha]))
  | opDeactivate =>
    simp only [applyOp] at h
    unfold Texture.deactivate_hook at h
    cases h
    exact viewsMono_refl t
  | opDelete =>
    simp only [applyOp] at h
    unfold Texture.delete at h
    cases h
    exact viewsMono_of_eq rfl

theorem applyOps_viewsMono {ops : List TexOp} : ∀ {t t' : Tex},
    applyOps t ops = .ok t' → viewsMono t t' := by
  induction ops with
  | nil =>
    intro t t' h
    unfold applyOps at h
    cases h
    exact viewsMono_refl _
  | cons op ops ih =>
    intro t t' h
    unfold applyOps at h
    cases ha : applyOp t op with
    | error e =>
      rw [ha, exceptBind_error] at h
      cases h
    | ok t1 =>
      rw [ha, exceptBind_ok] at h
      exact viewsMono_trans (applyOp_viewsMono ha) (ih h)

theorem npAsContiguous_shape (d : Arr) (c : Bool) :
    (npAsContiguous d c).shape = d.shape := by
  unfold npAsContiguous
  split_ifs <;> rfl

theorem npAsContiguous_content (d : Arr) (c : Bool) :
    (npAsContiguous d c).content = d.content := by
  unfold npAsContiguous
  split_ifs <;> rfl

theorem fitCheck_zero (s : List Nat) : ∀ n, s.length ≤ n →
    fitCheck (zeroOffset n) s s = .ok () := by
  induction s with
  | nil =>
    intro n hn
    cases n with
    | zero => rfl
    | succ m => rfl
  | cons a as ih =>
    intro n hn
    cases n with
    | zero => exact absurd hn (by simp)
    | succ m =>
      show fitCheck (zeroOffset (m + 1)) (a :: as) (a :: as) = .ok ()
      rw [zeroOffset, List.replicate_succ]
      show (if (0 : Int) + (a : Nat) > ((a : Nat) : Int) then
              Except.error (TexError.valueError "Data is too large")
            else fitCheck (List.replicate m 0) as as) = .ok ()
      rw [if_neg (by simp)]
      exact ih m (Nat.le_of_succ_le_succ hn)

/-- The fully-evaluated success case of `Texture.resize`. -/
theorem resize_ok_eq (t : Tex) (s : List Nat) (hres : t.resizeable = true)
    (hroot : t.isView = false) (hlen : s.length = t.shape.length)
    (hne : s ≠ t.shape) :
    Texture.resize t s = .ok { t with
      views := t.views.map invalidateView,
      pending := [],
      needUpdate := false,
      shape := s,
      data :=
        if t.data.isSome ∧ t.store then
          t.data.map (fun d => { d with shape := d.shape, contiguous := true })
        else none } := by
  unfold Texture.resize
  rw [if_neg (not_not_intro hres), if_neg (by simp [hroot]),
      if_neg (fun hc => hc hlen), if_neg hne]

/-- Fully-evaluated `set_data_enqueue` for a full-shape write with no
offset. -/
theorem set_data_enqueue_full (t1 : Tex) (d : Arr) (c : Bool)
    (hsh : d.shape = t1.shape) :
    set_data_enqueue t1 d none c =
      .ok { t1 with
              pending := [(npAsContiguous d c, zeroOffset t1.shape.length)],
              needUpdate := true } := by
  unfold set_data_enqueue
  have hcf : clearIfFull t1 d none = { t1 with pending := [] } := by
    unfold clearIfFull
    rw [if_pos (Or.inl rfl), if_pos hsh]
  have hef : effOffset t1 none = zeroOffset t1.shape.length := by
    unfold effOffset
    rw [if_pos (Or.inl rfl)]
  rw [hcf, hef]
  rw [show ({ t1 with pending := ([] : List (Arr × List Int)) } : Tex).shape
        = t1.shape from rfl]
  rw [hsh, fitCheck_zero t1.shape t1.shape.length le_rfl, exceptBind_ok]
  rfl

/-- Fully-evaluated `set_data_enqueue` for a full-shape write at the explicit
zero offset. -/
theorem set_data_enqueue_full_zero (t1 : Tex) (d : Arr) (c : Bool)
    (hsh : d.shape = t1.shape) :
    set_data_enqueue t1 d (some (zeroOffset t1.shape.length)) c =
      .ok { t1 with
              pending := [(npAsContiguous d c, zeroOffset t1.shape.length)],
              needUpdate := true } := by
  unfold set_data_enqueue
  have hcf : clearIfFull t1 d (some (zeroOffset t1.shape.length)) =
      { t1 with pending := [] } := by
    unfold clearIfFull
    rw [if_pos (Or.inr rfl), if_pos hsh]
  have hef : effOffset t1 (some (zeroOffset t1.shape.length)) =
      zeroOffset t1.shape.length := by
    unfold effOffset
    rw [if_pos (Or.inr rfl)]
  rw [hcf, hef]
  rw [show ({ t1 with pending := ([] : List (Arr × List Int)) } : Tex).shape
        = t1.shape from rfl]
  rw [hsh, fitCheck_zero t1.shape t1.shape.length le_rfl, exceptBind_ok]
  rfl

/-- C2: for every resizeable root texture and every new shape of the same
rank as and different from the current shape, `resize(new_shape)` succeeds,
leaves the texture's shape equal to the new shape, marks every previously
obtained view invalid — and permanently so: no later sequence of operations
ever turns a view valid again — empties the view registry, and empties the
pending-write queue.  (The hypothesis `hinv` — every still-valid view is
registered — holds for every reachable texture, since a view is created valid
and registered and is only ever invalidated and unregistered together.) -/
theorem C2_resize_invalidates (t : Tex) (s : List Nat)
    (hres : t.resizeable = true) (hroot : t.isView = false)
    (hlen : s.length = t.shape.length) (hne : s ≠ t.shape)
    (hinv : ∀ v ∈ t.views, v.valid = true → v.registered = true) :
    ∃ t', Texture.resize t s = .ok t' ∧
      t'.shape = s ∧
      (∀ v ∈ t'.views, v.valid = false) ∧
      (∀ v ∈ t'.views, v.registered = false) ∧
      t'.pending = [] ∧
      (∀ ops t'', applyOps t' ops = .ok t'' →
        ∀ i v'', t''.views.get? i = some v'' → i < t'.views.length →
          v''.valid = false) := by
  have hall : ∀ v ∈ t.views.map invalidateView, v.valid = false := by
    intro v hv
    obtain ⟨w, hw, rfl⟩ := List.mem_map.mp hv
    unfold invalidateView
    split_ifs with hr2
    · rfl
    · cases hwv : w.valid with
      | false => rfl
      | true => exact absurd (hinv w hw hwv) hr2
  have hregall : ∀ v ∈ t.views.map invalidateView, v.registered = false := by
    intro v hv
    obtain ⟨w, hw, rfl⟩ := List.mem_map.mp hv
    unfold invalidateView
    split_ifs with hr2
    · rfl
    · simpa using hr2
  refine ⟨_, resize_ok_eq t s hres hroot hlen hne, rfl, hall, hregall, rfl, ?_⟩
  intro ops t'' hops i v'' hv'' hi
  have mono := applyOps_viewsMono hops
  have h0 : (t.views.map invalidateView).get? i =
      some ((t.views.map invalidateView).get ⟨i, hi⟩) := List.get?_eq_get hi
  exact mono.2 i _ v'' h0 (hall _ (List.get_mem _ _ _)) hv''

/-- Concrete root texture for the C2 witness: shape (4,1), one queued write,
one live registered view and one view already invalidated by an earlier
resize. -/
def texC2 : Tex :=
  { shape := [4, 1], store := false,
    pending := [({ shape := [1, 1] }, [0, 0])],
    views := [{ offset := [0, 0], shape := [2, 1] },
              { offset := [1, 0], shape := [1, 1],
                valid := false, registered := false }] }

theorem C2_resize_invalidates_witness :
    ∃ t', Texture.resize texC2 [8, 1] = .ok t' ∧
      t'.shape = [8, 1] ∧
      (∀ v ∈ t'.views, v.valid = false) ∧
      (∀ v ∈ t'.views, v.registered = false) ∧
      t'.pending = [] ∧
      (∀ ops t'', applyOps t' ops = .ok t'' →
        ∀ i v'', t''.views.get? i = some v'' → i < t'.views.length →
          v''.valid = false) :=
  C2_resize_invalidates texC2 [8, 1] rfl rfl rfl (by decide) (by decide)

/-- C3: for every root texture, a `set_data` call whose data shape equals the
texture's shape (after the implicit resize when no offset is given) at the
zero effective offset clears the pending-write queue before enqueueing: the
call succeeds and afterwards the queue holds exactly the one new entry — the
given data (same shape and content, made contiguous) at the zero offset —
none of the previously queued writes remain, needs-update is set, and the
shape equals the data's shape. -/
theorem C3_full_write_supersedes (t : Tex) (data : Arr)
    (offset : Option (List Int)) (copy : Bool)
    (hroot : t.isView = false)
    (hcase : (offset = none ∧ (data.shape = t.shape ∨
               (t.resizeable = true ∧ data.shape.length = t.shape.length))) ∨
             (offset = some (zeroOffset t.shape.length) ∧ data.shape = t.shape)) :
    ∃ t' d, Texture.set_data t data offset copy = .ok t' ∧
      d.shape = data.shape ∧ d.content = data.content ∧
      t'.pending = [(d, zeroOffset data.shape.length)] ∧
      t'.needUpdate = true ∧ t'.shape = data.shape := by
  rcases hcase with ⟨hoff, hca⟩ | ⟨hoff, hsh⟩
  · subst hoff
    by_cases hs : data.shape = t.shape
    · rw [set_data_none_eq, if_neg (fun hc => hc hs), exceptBind_ok,
          set_data_enqueue_full t data copy hs]
      refine ⟨_, npAsContiguous data copy, rfl, npAsContiguous_shape _ _,
        npAsContiguous_content _ _, ?_, rfl, hs.symm ▸ rfl⟩
      rw [hs]
    · rcases hca with hca | ⟨hres2, hlen2⟩
      · exact absurd hca hs
      · rw [set_data_none_eq, if_pos hs,
            resize_ok_eq t data.shape hres2 hroot hlen2 hs, exceptBind_ok,
            set_data_enqueue_full _ data copy rfl]
        exact ⟨_, npAsContiguous data copy, rfl, npAsContiguous_shape _ _,
          npAsContiguous_content _ _, rfl, rfl, rfl⟩
  · subst hoff
    rw [set_data_some_eq, set_data_enqueue_full_zero t data copy hsh]
    refine ⟨_, npAsContiguous data copy, rfl, npAsContiguous_shape _ _,
      npAsContiguous_content _ _, ?_, rfl, hsh.symm ▸ rfl⟩
    rw [hsh]

/-- Concrete root texture for the C3 witness: shape (4,1) with one stale
queued write; the full write has shape (8,1), forcing the implicit resize. -/
def texC3 : Tex :=
  { shape := [4, 1], store := false,
    pending := [({ shape := [1, 1] }, [2, 0])] }

/-- The (8,1) array written over the whole of `texC3`. -/
def arrC3 : Arr := { shape := [8, 1], content := 9 }

theorem C3_full_write_supersedes_witness :
    ∃ t' d, Texture.set_data texC3 arrC3 none false = .ok t' ∧
      d.shape = arrC3.shape ∧ d.content = arrC3.content ∧
      t'.pending = [(d, zeroOffset arrC3.shape.length)] ∧
      t'.needUpdate = true ∧ t'.shape = arrC3.shape :=
  C3_full_write_supersedes texC3 arrC3 none false rfl
    (Or.inl ⟨rfl, Or.inr ⟨rfl, rfl⟩⟩)

/-- Modelled from the spec: the element-wise composition (sum) of two
offsets, as the claims describe offset composition. -/
def specOffsetSum (a b : List Int) : List Int :=
  List.zipWith (fun x y => x + y) a b

/-- Concrete base texture for C1: a (10,1) root with no CPU storage. -/
def texC1 : Tex := { shape := [10, 1], store := false }

/-- A valid view of `texC1` at offset (2,0), shape (3,1) (as `texC1[2:5]`
creates). -/
def viewC1 : View := { offset := [2, 0], shape := [3, 1] }

/-- A (1,1) data array written through `viewC1`. -/
def arrC1 : Arr := { shape := [1, 1], content := 5 }

/-- C1 counterexample: calling `set_data` on the valid view `viewC1`
(own offset (2,0)) with caller offset (1,0) queues an entry on the base at
offset (2,0) — the view's own offset — whereas the claim demands the
element-wise composition (3,0); the two offsets differ. -/
theorem C1_counterexample :
    (Texture.set_data_view viewC1 texC1 arrC1 (some [1, 0]) false).toOption.map
        (fun t => t.pending.map Prod.snd) = some [[2, 0]] ∧
    specOffsetSum [2, 0] [1, 0] = [3, 0] ∧
    ([[2, 0]] : List (List Int)) ≠ [[3, 0]] := by
  refine ⟨rfl, rfl, by decide⟩

/-- C1 (amended): for every valid view `v` with base `b`, `v.set_data(data,
offset, copy)` queues nothing on `v` itself (the base's registry and every
view record are untouched) and, when it succeeds, results in exactly one
forwarded call to `b.set_data` whose queued offset is `v`'s own offset — the
caller's offset argument is discarded. -/
theorem C1_view_set_data_forwards (b : Tex) (v : View) (d : Arr)
    (off : Option (List Int)) (c : Bool) (b' : Tex)
    (hv : v.valid = true)
    (h : Texture.set_data_view v b d off c = .ok b') :
    b'.views = b.views ∧ b'.shape = b.shape ∧ b'.needUpdate = true ∧
    ∃ d' p, d'.shape = d.shape ∧ d'.content = d.content ∧
      (p = b.pending ∨ p = []) ∧
      b'.pending = p ++ [(d', v.offset.map (fun n => (n : Int)))] := by
  unfold Texture.set_data_view at h
  rw [if_neg (fun hc => hc hv)] at h
  have hs := set_data_some_ok h
  obtain ⟨p, hp, hpend⟩ := hs.2.2.2.2
  exact ⟨hs.1, hs.2.1, hs.2.2.2.1, npAsContiguous d c, p,
    npAsContiguous_shape d c, npAsContiguous_content d c, hp, hpend⟩

/-- The base state after the C1 witness call: one queued entry at the view's
own offset (2,0). -/
def texC1res : Tex :=
  { texC1 with pending := [(arrC1, [2, 0])], needUpdate := true }

theorem C1_view_set_data_forwards_witness :
    texC1res.views = texC1.views ∧ texC1res.shape = texC1.shape ∧
    texC1res.needUpdate = true ∧
    ∃ d' p, d'.shape = arrC1.shape ∧ d'.content = arrC1.content ∧
      (p = texC1.pending ∨ p = []) ∧
      texC1res.pending = p ++ [(d', viewC1.offset.map (fun n => (n : Int)))] :=
  C1_view_set_data_forwards texC1 viewC1 arrC1 (some [1, 0]) false texC1res
    rfl rfl

/-- C10: for every texture whose base is not `None` — every view, valid or
invalidated — the indexed read `t[key]` raises "Can only access data from a
base texture" for every key: sub-views can only be created by indexing a
root. -/
theorem C10_getitem_requires_base (t : Tex) (k : PyKey) (h : t.isView = true) :
    Texture.getitem t k =
      .error (.valueError "Can only access data from a base texture") := by
  unfold Texture.getitem
  rw [if_pos h]

/-- A view object (of a (3,1) extent at offset (1,0)) used as the C10
witness receiver. -/
def texC10 : Tex := { isView := true, shape := [3, 1], offset := [1, 0] }

theorem C10_getitem_requires_base_witness :
    Texture.getitem texC10 (PyKey.scalar (KeyElem.int 0)) =
      .error (.valueError "Can only access data from a base texture") :=
  C10_getitem_requires_base texC10 (PyKey.scalar (KeyElem.int 0)) rfl

/-- Recognizes the dimension-specific allocate-storage calls
(`glTexImage1D` / `glTexImage2D`). -/
def isAllocCall : GLCall → Bool
  | .texImage2D _ _ _ _ _ _ _ _ => true
  | .texImage1D _ _ _ _ _ _ _ => true
  | _ => false

/-- A freshly constructed (4,4,4) 2D root texture with one queued write, as
`Texture2D.__init__` leaves it: `_need_resize` and `_need_update` set. -/
def texC4 : Tex :=
  { shape := [4, 4, 4], store := false, needResize := true, needUpdate := true,
    pending := [({ shape := [4, 4, 4] }, [0, 0, 0])] }

/-- C4: the claim says `resize(new_shape)` marks the texture as needing a
GPU-side resize — but the method never sets `_need_resize`.  After one
activation cycle (which performs the initial allocation and clears the flag),
`resize((8,8,4))` leaves `_need_resize` still `False`, and the next update
cycle — with a new write queued — issues no allocate-storage call at all. -/
theorem C4_resize_does_not_mark_need_resize :
    ((Texture2D.activate texC4).toOption.bind fun r1 =>
      (Texture.resize r1.1 [8, 8, 4]).toOption.bind fun t2 =>
        (Texture.set_data t2 { shape := [2, 2, 4] } (some [0, 0, 0])
            false).toOption.bind fun t3 =>
          (Texture2D.update_hook t3).toOption.map fun r4 =>
            (r1.1.needResize, t2.needResize, r4.2.any isAllocCall)) =
      some (false, false, false) := by
  rfl

/-- A (4,1) root texture with CPU storage of the same shape. -/
def texC5 : Tex :=
  { shape := [4, 1], target := GL_TEXTURE_1D, format := GL_LUMINANCE,
    data := some { shape := [4, 1], content := 7 } }

/-- C5: the claim says `resize(new_shape)` reallocates the CPU storage to the
new shape — but line 245 calls `np.resize(self._data, self._data.shape)`
with the storage's own old shape, so after `resize((8,1))` the texture's
shape is (8,1) while the storage still has shape (4,1). -/
theorem C5_resize_keeps_old_storage_shape :
    (Texture.resize texC5 [8, 1]).toOption.map
        (fun t => (t.shape, t.data.map Arr.shape)) =
      some ([8, 1], some [4, 1]) ∧
    (some [4, 1] : Option (List Nat)) ≠ some [8, 1] := by
  refine ⟨rfl, by decide⟩

/-- Concrete base texture for C6: a (10,1) root with no CPU storage. -/
def texC6 : Tex := { shape := [10, 1], store := false }

/-- A valid view of `texC6` at offset (2,0), shape (3,1). -/
def viewC6 : View := { offset := [2, 0], shape := [3, 1] }

/-- C6: the claim says the indexed write on a valid view delegates to the
base with the element-wise sum of the view's offset and the key's offset —
but line 436 computes `self.offset + offset`, a Python tuple concatenation.
Writing `viewC6[0] = value` (key offset (0,0)) queues an entry on the base
whose offset is the four-element tuple (2,0,0,0), not the element-wise sum
(2,0). -/
theorem C6_setitem_view_concatenates_offsets :
    (Texture.setitem_view viewC6 texC6 (PyKey.scalar (KeyElem.int 0))
        { shape := [1, 1], content := 3 }).toOption.map
        (fun t => t.pending.map Prod.snd) = some [[2, 0, 0, 0]] ∧
    specOffsetSum [2, 0] [0, 0] = [2, 0] ∧
    ([[2, 0, 0, 0]] : List (List Int)) ≠ [[2, 0]] := by
  refine ⟨rfl, rfl, by decide⟩

/-- A (4,4,4) 2D root texture with nothing queued and no pending GPU
resize. -/
def texC7 : Tex := { shape := [4, 4, 4], store := false }

/-- Count the `glTexParameterf` pushes in a GL call trace. -/
def countParamPushes (cs : List GLCall) : Nat :=
  (cs.filter fun c =>
    match c with
    | .texParameterf _ _ _ => true
    | _ => false).length

/-- C7: the claim says activation pushes the parameters and clears the
needs-reparameterization flag, so a second activation with no intervening
write pushes nothing — but `_parameterize` (line 461) resets the flag to
`True`, so after the first activation the flag is still set and the second
activation pushes all four parameters again. -/
theorem C7_reparameterization_flag_never_clears :
    ((Texture2D.activate texC7).toOption.bind fun r1 =>
      (Texture2D.activate r1.1).toOption.map fun r2 =>
        (r1.1.needParameterization, countParamPushes r1.2,
         countParamPushes r2.2)) =
      some (true, 4, 4) := by
  rfl

/-- A (4,4,4) 2D root texture used to exercise the parameter accessors. -/
def texC8 : Tex := { shape := [4, 4, 4] }

/-- C8: the claim says reading `wrapping`/`interpolation` on a root returns
the stored value and writing stores it — but the `wrapping` getter (line
170), the `wrapping` setter (line 179) and the `interpolation` getter (line
191) all test the undefined module-level name `base`, so each raises
`NameError` unconditionally; only the `interpolation` setter behaves as
claimed. -/
theorem C8_parameter_accessors_name_error :
    Texture.wrapping_get texC8 = .error (.nameError "name base is not defined") ∧
    Texture.interpolation_get texC8 =
      .error (.nameError "name base is not defined") ∧
    Texture.wrapping_set texC8 GL_REPEAT =
      .error (.nameError "name base is not defined") ∧
    Texture.interpolation_set texC8 GL_LINEAR =
      .ok { texC8 with interpolation := .single GL_LINEAR,
                       needParameterization := true } := by
  refine ⟨rfl, rfl, rfl, rfl⟩

/-- A (10,1) root texture with no CPU storage. -/
def texC9 : Tex := { shape := [10, 1], store := false }

/-- C9: the claim says an integer key is rejected whenever the normalized
index lies outside `0..n-1` — but line 343 checks `k > size` instead of
`k >= size`, so on a dimension of size 10 the index 10 is accepted and
yields the out-of-extent view offset (10,0) with shape (1,1).  Negative
normalization (`-1 ↦ 9`) and the rejection of 11 behave as claimed. -/
theorem C9_index_equal_to_size_accepted :
    (Texture.getitem texC9 (PyKey.scalar (KeyElem.int 10))).toOption.map
        (fun p => (p.2.offset, p.2.shape)) = some ([10, 0], [1, 1]) ∧
    (Texture.getitem texC9 (PyKey.scalar (KeyElem.int (-1)))).toOption.map
        (fun p => (p.2.offset, p.2.shape)) = some ([9, 0], [1, 1]) ∧
    (Texture.getitem texC9 (PyKey.scalar (KeyElem.int 11))).toOption.map
        (fun p => (p.2.offset, p.2.shape)) = none := by
  refine ⟨rfl, rfl, rfl⟩
